import Mathlib

/-!
Shallow embedding of asmeikal/cl-utils (OpenCL utility layer, C sources in
src/mlclut.c, src/mlclut_descriptions.c, src/mlclut_images.c).

The external OpenCL platform API, the raster codecs (pgm / stb_image) and the
MLUtils helpers are collaborators outside this repository; their observable
outcomes (return codes, reported sizes, decoded buffers) are modelled as
explicit inputs to the embedded functions, so that each embedded function is
the pure C control flow over those outcomes.  Machine integers are modelled as
Nat (cl_uint, cl_ulong, size_t are unsigned); status codes (cl_int) as Int.
C `double` intermediates are modelled as rationals; at every input a theorem
below evaluates them the arithmetic is exact in IEEE double as well (the
values are integers or integers divided by powers of two).
-/

namespace Clut

/-- CL_SUCCESS status code (OpenCL: 0). -/
def CL_SUCCESS : Int := 0

/-- mlclut.c, clut_returnSuccess: checks if a function returned with success. -/
def clut_returnSuccess (value : Int) : Bool := CL_SUCCESS == value

/-!
## AttributeQuery: clut_getDeviceInfo / clut_getPlatformInfo (mlclut.c 170-281)

Both functions run the probe/allocate/fetch/verify sequence against the
platform API (clGetDeviceInfo resp. clGetPlatformInfo).  The API's behaviour
at the two call sites is a record: the probe call's status and reported size,
whether calloc succeeds, and the fetch call's status, written bytes and
reported size as functions of the size the fetch was invoked with.
-/

/-- Outcomes of the underlying platform API calls made by one info query. -/
structure InfoApi where
  probeRet : Int
  probeSize : Nat
  allocOk : Bool
  fetchRet : Nat → Int
  fetchData : Nat → List Nat
  fetchSize : Nat → Nat

/-- A successful query result: the fetched buffer and its size. -/
structure InfoValue where
  data : List Nat
  size : Nat
deriving DecidableEq

/-- mlclut.c 170-222, clut_getDeviceInfo: probe size, reject failure or zero
size, allocate, fetch, reject failure or size change, return buffer+size. -/
def clut_getDeviceInfo (api : InfoApi) : Option InfoValue :=
  if ¬ clut_returnSuccess api.probeRet then none
  else if api.probeSize = 0 then none
  else if ¬ api.allocOk then none
  else
    let res_size := api.probeSize
    if ¬ clut_returnSuccess (api.fetchRet res_size) then none
    else if res_size ≠ api.fetchSize res_size then none
    else some ⟨api.fetchData res_size, res_size⟩

/-- mlclut.c 229-281, clut_getPlatformInfo: identical probe/allocate/fetch/
verify sequence against clGetPlatformInfo. -/
def clut_getPlatformInfo (api : InfoApi) : Option InfoValue :=
  if ¬ clut_returnSuccess api.probeRet then none
  else if api.probeSize = 0 then none
  else if ¬ api.allocOk then none
  else
    let res_size := api.probeSize
    if ¬ clut_returnSuccess (api.fetchRet res_size) then none
    else if res_size ≠ api.fetchSize res_size then none
    else some ⟨api.fetchData res_size, res_size⟩

/-!
## ProgramBuilder: clut_createProgramFromFile (mlclut.c 294-373) and
clut_printProgramBuildLog (mlclut.c 386-449)

The observable actions of one build request are recorded as an ordered event
trace: per-device build-log retrieval (one clut_printDeviceProgramBuildLog
invocation per device, mlclut.c 443-445), clReleaseProgram, and the frees of
the options string and the parsed source lines.  Every event in the trace
happens before the function returns.
-/

/-- Observable actions performed during clut_createProgramFromFile. -/
inductive BuildEvent
  | queryBuildLog (device : Nat)
  | releaseProgram
  | freeOptions
  | freeLines
deriving DecidableEq

/-- True exactly on per-device build-log retrieval events. -/
def BuildEvent.isLogQuery : BuildEvent → Bool
  | queryBuildLog _ => true
  | _ => false

/-- Outcomes of the platform API and allocator calls one build request makes. -/
structure BuildApi where
  parseOk : Bool            -- parseLines_array (external LineParser) non-NULL
  createRet : Int           -- clCreateProgramWithSource status
  createNull : Bool         -- created program handle is NULL
  optsCallocOk : Bool       -- calloc of the options buffer (flags present)
  optsCloneOk : Bool        -- StringUtils_clone of BUILD_OPTS (no flags)
  buildRet : String → Int   -- clBuildProgram status, given the options string
  numDevRet : Int           -- clGetProgramInfo CL_PROGRAM_NUM_DEVICES status
  numDevices : Nat          -- the device count that query reports
  devListAllocOk : Bool     -- calloc of the device vector
  devListRet : Int          -- clGetProgramInfo CL_PROGRAM_DEVICES status
  devices : List Nat        -- the device list that query fills (numDevices entries)

/-- mlclut.c 23-25: BUILD_OPTS, three adjacent string literals each ending in
a space, so the macro's value itself ends in a space. -/
def BUILD_OPTS : String := "-cl-std=CL1.2 -cl-kernel-arg-info -Werror "

/-- mlclut.c 330-346: the build-options string handed to clBuildProgram.
With flags: sprintf(build_options, "%s ", BUILD_OPTS) writes BUILD_OPTS and a
space, then sprintf(build_options + strlen(BUILD_OPTS), "%s", flags) starts
writing at byte offset strlen(BUILD_OPTS), overwriting that space.  Without
flags: StringUtils_clone(BUILD_OPTS). -/
def composedBuildOptions (flags : Option String) : String :=
  match flags with
  | some f =>
      String.mk (((BUILD_OPTS ++ " ").toList.take BUILD_OPTS.toList.length) ++ f.toList)
  | none => BUILD_OPTS

/-- mlclut.c 386-449, clut_printProgramBuildLog: query the program's device
count and device list, then invoke clut_printDeviceProgramBuildLog once per
listed device; any query failure (or zero devices, or calloc failure) prints
nothing. -/
def clut_printProgramBuildLog (api : BuildApi) : List BuildEvent :=
  if ¬ clut_returnSuccess api.numDevRet then []
  else if api.numDevices = 0 then []
  else if ¬ api.devListAllocOk then []
  else if ¬ clut_returnSuccess api.devListRet then []
  else api.devices.map BuildEvent.queryBuildLog

/-- The device list the device-count and device-list queries return to
clut_printProgramBuildLog: the filled vector when every step succeeds, and
nothing otherwise. -/
def programDevices (api : BuildApi) : List Nat :=
  if ¬ clut_returnSuccess api.numDevRet then []
  else if api.numDevices = 0 then []
  else if ¬ api.devListAllocOk then []
  else if ¬ clut_returnSuccess api.devListRet then []
  else api.devices

/-- mlclut.c 294-373, clut_createProgramFromFile: parse the source file,
create the program, compose the build options, run the blocking build; on
build failure print the per-device build logs, free the options string,
release the program, free the lines, and return NULL (goto chain
clean3/clean2/clean1). -/
def clut_createProgramFromFile (api : BuildApi) (fileNull : Bool)
    (flags : Option String) : Option Unit × List BuildEvent :=
  if fileNull then (none, [])
  else if ¬ api.parseOk then (none, [])
  else if ¬ clut_returnSuccess api.createRet then
    (none, [BuildEvent.releaseProgram, BuildEvent.freeLines])
  else if api.createNull then
    (none, [BuildEvent.freeLines])
  else
    let optsOk : Bool := match flags with
      | some _ => api.optsCallocOk
      | none => api.optsCloneOk
    if ¬ (optsOk = true) then
      (none, [BuildEvent.releaseProgram, BuildEvent.freeLines])
    else
      let build_options := composedBuildOptions flags
      if ¬ clut_returnSuccess (api.buildRet build_options) then
        (none, clut_printProgramBuildLog api ++
          [BuildEvent.freeOptions, BuildEvent.releaseProgram, BuildEvent.freeLines])
      else
        (some (), [BuildEvent.freeOptions, BuildEvent.freeLines])

/-!
## CapabilityDescriber renderers (mlclut_descriptions.c)

The typed printer functions build one output string; printing is modelled as
returning that string.  The C `double` intermediate of the unit-scaling
renderers is modelled as ℚ: converting an unsigned integer to double and
repeatedly dividing by 1024 only shifts the exponent (and 1000-division is
exact at the inputs evaluated below), so ℚ and IEEE double agree wherever a
theorem below evaluates these functions.
-/

/-- printf("%.2f", q): fixed-point rendering with two decimals.  Rounding to
nearest is implemented as round-half-up by integer arithmetic on q's reduced
numerator and denominator; every value a theorem below formats is an integer,
where no rounding occurs at all. -/
def formatFixed2 (q : ℚ) : String :=
  let n : Int := (q.num * 200 + (q.den : Int)) / (2 * (q.den : Int))
  let np : Nat := n.toNat
  toString (np / 100) ++ "." ++ (if np % 100 < 10 then "0" else "") ++ toString (np % 100)

/-- The scaling while-loop shared verbatim by the three unit-scaling
renderers: while (value >= divisor && i < bound) { value /= divisor; ++i; }.
fuel is (bound - initial i): the guard admits entering only with i < bound
and i increases by 1 per iteration, so the loop body can run at most fuel
times and exhausting fuel coincides with the guard turning false. -/
def scaleWhile (divisor : ℚ) (bound : Int) : Nat → ℚ → Int → ℚ × Int
  | 0, v, i => (v, i)
  | fuel+1, v, i =>
      if divisor ≤ v ∧ i < bound then scaleWhile divisor bound fuel (v / divisor) (i + 1)
      else (v, i)

/-- The named entries of the cl_uint byte-unit table (mlclut_descriptions.c
724); the C array ends in a NULL sentinel, which sits at index 3 = length. -/
def bytes_unit_uint : List String := ["KB", "MB", "GB"]

/-- The named entries of the cl_ulong byte-unit table (mlclut_descriptions.c
780); the C array ends in a NULL sentinel, which sits at index 5 = length. -/
def bytes_unit_ulong : List String := ["KB", "MB", "GB", "TB", "PB"]

/-- The named entries of the frequency unit table (mlclut_descriptions.c
752); the C array ends in a NULL sentinel, which sits at index 2 = length. -/
def hertz_unit : List String := ["MhZ", "GhZ"]

/-- mlclut_descriptions.c 722-739, clut_info_print_CL_UINT_bytes: i starts at
-1 and the loop guard is i < 3.  List.get? models the bytes_unit array
lookup: none is the NULL sentinel, in which case printf("%.2f %s (%u bytes)")
would receive a NULL string argument (modelled as result none). -/
def clut_info_print_CL_UINT_bytes (bytes : Nat) : Option String :=
  let s := scaleWhile 1024 3 4 (bytes : ℚ) (-1)
  if 0 ≤ s.2 then
    match bytes_unit_uint.get? s.2.toNat with
    | some u => some (formatFixed2 s.1 ++ " " ++ u ++ " (" ++ toString bytes ++ " bytes)")
    | none => none
  else some (toString bytes ++ " bytes")

/-- mlclut_descriptions.c 778-795, clut_info_print_CL_ULONG_bytes: same loop
with guard i < 5 over the five-entry (plus NULL sentinel) unit table. -/
def clut_info_print_CL_ULONG_bytes (bytes : Nat) : Option String :=
  let s := scaleWhile 1024 5 6 (bytes : ℚ) (-1)
  if 0 ≤ s.2 then
    match bytes_unit_ulong.get? s.2.toNat with
    | some u => some (formatFixed2 s.1 ++ " " ++ u ++ " (" ++ toString bytes ++ " bytes)")
    | none => none
  else some (toString bytes ++ " bytes")

/-- mlclut_descriptions.c 750-767, clut_info_print_CL_UINT_hertz: i starts at
0, guard i < 2, divisor 1000; on the scaled path it prints
"%.2f %s (%u %s)" with hertz_unit[i] and hertz_unit[0], otherwise
"%u %s" with hertz_unit[0]. -/
def clut_info_print_CL_UINT_hertz (hertz : Nat) : Option String :=
  let s := scaleWhile 1000 2 2 (hertz : ℚ) 0
  if 0 < s.2 then
    match hertz_unit.get? s.2.toNat, hertz_unit.get? 0 with
    | some u, some u0 =>
        some (formatFixed2 s.1 ++ " " ++ u ++ " (" ++ toString hertz ++ " " ++ u0 ++ ")")
    | _, _ => none
  else
    match hertz_unit.get? 0 with
    | some u0 => some (toString hertz ++ " " ++ u0)
    | none => none

/-!
## Bitfield and vector renderers (mlclut_descriptions.c 883-1051)

OpenCL 1.2 constants (from the standard CL/cl.h, an external collaborator):
CL_DEVICE_AFFINITY_DOMAIN_NUMA = 1, L4_CACHE = 2, L3_CACHE = 4, L2_CACHE = 8,
L1_CACHE = 16, NEXT_PARTITIONABLE = 32; CL_FP_DENORM = 1, CL_FP_INF_NAN = 2,
CL_FP_ROUND_TO_NEAREST = 4, CL_FP_ROUND_TO_ZERO = 8, CL_FP_ROUND_TO_INF = 16,
CL_FP_FMA = 32, CL_FP_SOFT_FLOAT = 64, CL_FP_CORRECTLY_ROUNDED_DIVIDE_SQRT =
128; CL_DEVICE_PARTITION_EQUALLY = 0x1086, BY_COUNTS = 0x1087,
BY_AFFINITY_DOMAIN = 0x1088.
-/

/-- mlclut_descriptions.c 204-211: the ordered affinity-domain flag table. -/
def cl_device_affinity_domains : List Nat := [1, 2, 4, 8, 16, 32]

/-- mlclut_descriptions.c 223-232: the ordered FP-config flag table
(CL_FP_CORRECTLY_ROUNDED_DIVIDE_SQRT = 128 is listed before
CL_FP_SOFT_FLOAT = 64). -/
def cl_device_fp_configs_array : List Nat := [1, 2, 4, 8, 16, 32, 128, 64]

/-- mlclut_descriptions.c 1402-1423,
clut_get_CL_DEVICE_AFFINITY_DOMAIN_Description. -/
def clut_get_CL_DEVICE_AFFINITY_DOMAIN_Description (value : Nat) : String :=
  if value = 1 then "NUMA"
  else if value = 2 then "L4 cache"
  else if value = 4 then "L3 cache"
  else if value = 8 then "L2 cache"
  else if value = 16 then "L1 cache"
  else if value = 32 then "Next Partitionable"
  else if value = 0 then "no affinity domain supported"
  else "UNKNOWN PARTITION DOMAIN"

/-- mlclut_descriptions.c 1432-1454,
clut_get_CL_DEVICE_FP_CONFIG_Description. -/
def clut_get_CL_DEVICE_FP_CONFIG_Description (value : Nat) : String :=
  if value = 1 then "denorms"
  else if value = 2 then "INF and NaN values"
  else if value = 4 then "rounding to nearest"
  else if value = 8 then "rounding to zero"
  else if value = 16 then "rouding to INF"
  else if value = 32 then "fused multiply-add"
  else if value = 128 then "correctly rounded divides and sqrt"
  else if value = 64 then "software float ops"
  else "UNKNOWN FP CAPABILITY"

/-- mlclut_descriptions.c 1463-1478,
clut_get_CL_DEVICE_PARTITION_PROPERTY_Description: value 0 has the designated
label "no partition type supported". -/
def clut_get_CL_DEVICE_PARTITION_PROPERTY_Description (value : Int) : String :=
  if value = 0x1086 then "partition equally"
  else if value = 0x1087 then "partition by counts"
  else if value = 0x1088 then "partition by domain"
  else if value = 0 then "no partition type supported"
  else "UNKNOWN PARTITION PROPERTY"

/-- The flag-printing loop shared verbatim by the bitfield printers: for each
table entry whose bit is set in the value, print ", %s" if something was
already printed and "%s" otherwise.  The accumulator carries (output so far,
printed count). -/
def bitfieldRender (table : List Nat) (desc : Nat → String) (v : Nat) : String :=
  (table.foldl
    (fun st f =>
      if v &&& f ≠ 0 then
        (if 0 < st.2 then st.1 ++ ", " ++ desc f else st.1 ++ desc f, st.2 + 1)
      else st)
    ("", 0)).1

/-- mlclut_descriptions.c 896-914, clut_info_print_CL_DEVICE_AFFINITY_DOMAIN:
value 0 prints the describer's designated label and returns; otherwise the
flag loop over cl_device_affinity_domains runs. -/
def clut_info_print_CL_DEVICE_AFFINITY_DOMAIN (domain : Nat) : String :=
  if domain = 0 then clut_get_CL_DEVICE_AFFINITY_DOMAIN_Description domain
  else bitfieldRender cl_device_affinity_domains
    clut_get_CL_DEVICE_AFFINITY_DOMAIN_Description domain

/-- mlclut_descriptions.c 983-1001, clut_info_print_CL_DEVICE_FP_CONFIG:
value 0 prints "no FP capabilities" and returns; otherwise the flag loop over
cl_device_fp_configs_array runs. -/
def clut_info_print_CL_DEVICE_FP_CONFIG (cap : Nat) : String :=
  if cap = 0 then "no FP capabilities"
  else bitfieldRender cl_device_fp_configs_array
    clut_get_CL_DEVICE_FP_CONFIG_Description cap

/-- mlclut_descriptions.c 1039-1051,
clut_info_print_CL_DEVICE_PARTITION_PROPERTIES: a vector renderer printing
every element (array_len = size / sizeof(cl_device_partition_property));
the argument is the decoded element vector. -/
def clut_info_print_CL_DEVICE_PARTITION_PROPERTIES (values : List Int) : String :=
  (values.foldl
    (fun st p =>
      (if 0 < st.2 then st.1 ++ ", " ++ clut_get_CL_DEVICE_PARTITION_PROPERTY_Description p
       else st.1 ++ clut_get_CL_DEVICE_PARTITION_PROPERTY_Description p, st.2 + 1))
    ("", 0)).1

/-!
## ImageBridge: clut_loadImageFromFile (mlclut_images.c 34-133) and
clut_getImageFormatComponents (mlclut_images.c 235-270)

OpenCL 1.2 channel-order and channel-type constants (standard CL/cl.h):
CL_R = 0x10B0, CL_A = 0x10B1, CL_RG = 0x10B2, CL_RA = 0x10B3,
CL_RGB = 0x10B4, CL_RGBA = 0x10B5, CL_INTENSITY = 0x10B8,
CL_LUMINANCE = 0x10B9, CL_Rx = 0x10BA, CL_RGx = 0x10BB, CL_RGBx = 0x10BC;
CL_UNSIGNED_INT8 = 0x10DA.
-/

def CL_R : Nat := 0x10B0
def CL_A : Nat := 0x10B1
def CL_RG : Nat := 0x10B2
def CL_RA : Nat := 0x10B3
def CL_RGB : Nat := 0x10B4
def CL_RGBA : Nat := 0x10B5
def CL_INTENSITY : Nat := 0x10B8
def CL_LUMINANCE : Nat := 0x10B9
def CL_Rx : Nat := 0x10BA
def CL_RGx : Nat := 0x10BB
def CL_RGBx : Nat := 0x10BC
def CL_UNSIGNED_INT8 : Nat := 0x10DA

/-- StringUtils_endsWith (external MLUtils helper, modelled from its name and
its use at mlclut_images.c 50): whether suff is a suffix of s, via the
character lists (the filenames involved are ASCII, so characters and C bytes
coincide). -/
def StringUtils_endsWith (s suff : String) : Bool := suff.data.isSuffixOf s.data

/-- cl_image_format: channel order plus channel data type. -/
structure cl_image_format where
  image_channel_order : Nat
  image_channel_data_type : Nat
deriving DecidableEq

/-- mlclut_images.c 235-270, clut_getImageFormatComponents: switch on the
channel order (fallthrough case groups of the C switch become disjunctions);
-1 on an unknown order. -/
def clut_getImageFormatComponents (image_format : cl_image_format) : Int :=
  let o := image_format.image_channel_order
  if o = CL_R ∨ o = CL_Rx ∨ o = CL_A ∨ o = CL_INTENSITY ∨ o = CL_LUMINANCE then 1
  else if o = CL_RG ∨ o = CL_RGx ∨ o = CL_RA then 2
  else if o = CL_RGB ∨ o = CL_RGBx then 3
  else if o = CL_RGBA then 4
  else -1

/-- Observable actions performed during clut_loadImageFromFile, in program
order: decoder invocations, the clCreateImage request (with the requested
format), the element-size introspection query, and the two buffer-release
routines (free for the pgm buffer, stbi_image_free for the stb buffer). -/
inductive ImgEvent
  | pgmLoad
  | stbLoad (req : Nat)
  | createImage (order dataType : Nat)
  | elemSizeQuery
  | freePlain
  | stbFree
deriving DecidableEq

/-- Outcomes of the decoder and platform API calls one load makes. -/
structure ImgApi where
  pgmLoadRet : Int                          -- pgm_load return; 0 = success
  pgmSize : Nat × Nat                       -- (height, width) pgm_load stores
  stbLoad : Nat → Option (Nat × Nat × Nat)  -- req comps → (width, height, file comps)
  createImageRet : Int                      -- clCreateImage errcode_ret
  elemSizeRet : Int                         -- clGetImageInfo(CL_IMAGE_ELEMENT_SIZE)

/-- A successfully created device image: its format and dimensions. -/
structure CreatedImage where
  format : cl_image_format
  width : Nat
  height : Nat
deriving DecidableEq

/-- What one clut_loadImageFromFile call produced: the returned cl_mem (none
for NULL), the ordered event trace (all events happen before the return),
and the width/height stored through the out parameters (none if the function
returned without storing them). -/
structure LoadOutcome where
  result : Option CreatedImage
  trace : List ImgEvent
  sizeOut : Option (Nat × Nat)
deriving DecidableEq

/-- mlclut_images.c 110-132: the shared tail of clut_loadImageFromFile after
a decode buffer exists: request clCreateImage (NULL result on failure, then
CLUT_CHECK_ERROR jumps to error2, which frees the buffer via the branch
matching is_pgm); on success query the element size, whose CLUT_CHECK_ERROR
jumps to error1 - skipping the error2 free and the width/height stores; on
full success store width/height and fall through error2, freeing the buffer. -/
def loadFinish (api : ImgApi) (is_pgm : Bool) (fmt : cl_image_format)
    (w h : Nat) (tr : List ImgEvent) : LoadOutcome :=
  let freeEvt := if is_pgm then ImgEvent.freePlain else ImgEvent.stbFree
  let tr1 := tr ++ [ImgEvent.createImage fmt.image_channel_order fmt.image_channel_data_type]
  if ¬ clut_returnSuccess api.createImageRet then
    ⟨none, tr1 ++ [freeEvt], none⟩
  else
    let tr2 := tr1 ++ [ImgEvent.elemSizeQuery]
    if ¬ clut_returnSuccess api.elemSizeRet then
      ⟨some ⟨fmt, w, h⟩, tr2, none⟩
    else
      ⟨some ⟨fmt, w, h⟩, tr2 ++ [freeEvt], some (w, h)⟩

/-- mlclut_images.c 34-133, clut_loadImageFromFile: dispatch on
StringUtils_endsWith(filename, "pgm"); the pgm decoder yields a single-channel
CL_R image; the stb decoder is asked for the native channel count (0), and
its reported count selects CL_R / CL_RA / CL_RGBA; a count of 3 frees the
buffer and re-decodes forcing 4 channels (CL_RGBA); any other count jumps to
error2.  The channel data type is always CL_UNSIGNED_INT8. -/
def clut_loadImageFromFile (api : ImgApi) (filename : String) : LoadOutcome :=
  if StringUtils_endsWith filename "pgm" then
    if api.pgmLoadRet ≠ 0 then ⟨none, [ImgEvent.pgmLoad], none⟩
    else loadFinish api true ⟨CL_R, CL_UNSIGNED_INT8⟩ api.pgmSize.2 api.pgmSize.1
      [ImgEvent.pgmLoad]
  else
    match api.stbLoad 0 with
    | none => ⟨none, [ImgEvent.stbLoad 0], none⟩
    | some (w, h, c) =>
      if c = 1 then
        loadFinish api false ⟨CL_R, CL_UNSIGNED_INT8⟩ w h [ImgEvent.stbLoad 0]
      else if c = 2 then
        loadFinish api false ⟨CL_RA, CL_UNSIGNED_INT8⟩ w h [ImgEvent.stbLoad 0]
      else if c = 3 then
        match api.stbLoad 4 with
        | none => ⟨none, [ImgEvent.stbLoad 0, ImgEvent.stbFree, ImgEvent.stbLoad 4], none⟩
        | some (w2, h2, _) =>
          loadFinish api false ⟨CL_RGBA, CL_UNSIGNED_INT8⟩ w2 h2
            [ImgEvent.stbLoad 0, ImgEvent.stbFree, ImgEvent.stbLoad 4]
      else if c = 4 then
        loadFinish api false ⟨CL_RGBA, CL_UNSIGNED_INT8⟩ w h [ImgEvent.stbLoad 0]
      else ⟨none, [ImgEvent.stbLoad 0, ImgEvent.stbFree], none⟩

/-!
## Event profiling: clut_getEventDuration / clut_getEventDuration_ns
(mlclut.c 558-606)
-/

/-- Outcomes of the two clGetEventProfilingInfo calls. -/
structure EventApi where
  startRet : Int
  startVal : Nat   -- CL_PROFILING_COMMAND_START (cl_ulong)
  endRet : Int
  endVal : Nat     -- CL_PROFILING_COMMAND_END (cl_ulong)

/-- mlclut.c 585-606, clut_getEventDuration_ns: 0 when either profiling query
fails (CLUT_CHECK_ERROR goto error) or end < start, otherwise end - start
(a cl_ulong, hence Nat). -/
def clut_getEventDuration_ns (api : EventApi) : Nat :=
  if ¬ clut_returnSuccess api.startRet then 0
  else if ¬ clut_returnSuccess api.endRet then 0
  else if api.endVal < api.startVal then 0
  else api.endVal - api.startVal

/-- mlclut.c 558-579, clut_getEventDuration: same control flow, returning
(cl_double)(end - start) * 1e-09.  The double product is modelled in ℚ as
(end - start) times 1/10^9; IEEE rounding cannot change the sign or the
zeroness of that product, which is all the theorem below uses. -/
def clut_getEventDuration (api : EventApi) : ℚ :=
  if ¬ clut_returnSuccess api.startRet then 0
  else if ¬ clut_returnSuccess api.endRet then 0
  else if api.endVal < api.startVal then 0
  else ((api.endVal - api.startVal : Nat) : ℚ) * (1 / 1000000000)

end Clut

/-- The build-log printer's trace is exactly one log query per device the
device-count/device-list queries return. -/
theorem printProgramBuildLog_eq_map (api : Clut.BuildApi) :
    Clut.clut_printProgramBuildLog api
      = (Clut.programDevices api).map Clut.BuildEvent.queryBuildLog := by
  unfold Clut.clut_printProgramBuildLog Clut.programDevices
  split_ifs <;> simp

/-- C1: if the size probe succeeds and the fetch call succeeds but reports a
written size different from the probed size, both clut_getDeviceInfo and
clut_getPlatformInfo return failure (none) instead of the fetched buffer. -/
theorem getInfo_size_mismatch_fails (api : Clut.InfoApi)
    (hprobe : Clut.clut_returnSuccess api.probeRet = true)
    (hfetch : Clut.clut_returnSuccess (api.fetchRet api.probeSize) = true)
    (hne : api.fetchSize api.probeSize ≠ api.probeSize) :
    Clut.clut_getDeviceInfo api = none ∧ Clut.clut_getPlatformInfo api = none := by
  constructor
  · simp [Clut.clut_getDeviceInfo, hprobe, hfetch, Ne.symm hne]
  · simp [Clut.clut_getPlatformInfo, hprobe, hfetch, Ne.symm hne]

/-- C1 witness: a mock API reporting size 16 on the probe and 12 on the fetch,
both calls successful, makes both queries fail. -/
theorem getInfo_size_mismatch_fails_witness :
    Clut.clut_getDeviceInfo ⟨0, 16, true, fun _ => 0, fun _ => [], fun _ => 12⟩ = none ∧
    Clut.clut_getPlatformInfo ⟨0, 16, true, fun _ => 0, fun _ => [], fun _ => 12⟩ = none :=
  getInfo_size_mismatch_fails ⟨0, 16, true, fun _ => 0, fun _ => [], fun _ => 12⟩
    (by decide) (by decide) (by decide)

/-- C2: when the blocking build call reports failure (after parsing, program
creation and options allocation succeeded), clut_createProgramFromFile
returns failure (none), its trace contains the clReleaseProgram event (all
trace events happen before the return), and the build-log retrievals in the
trace are exactly one per device returned by the device-count/device-list
queries. -/
theorem createProgram_build_failure (api : Clut.BuildApi) (flags : Option String)
    (hparse : api.parseOk = true)
    (hcreate : Clut.clut_returnSuccess api.createRet = true)
    (hnn : api.createNull = false)
    (halloc : (match flags with
      | some _ => api.optsCallocOk
      | none => api.optsCloneOk) = true)
    (hbuild : Clut.clut_returnSuccess
      (api.buildRet (Clut.composedBuildOptions flags)) = false) :
    (Clut.clut_createProgramFromFile api false flags).1 = none ∧
    Clut.BuildEvent.releaseProgram ∈ (Clut.clut_createProgramFromFile api false flags).2 ∧
    ((Clut.clut_createProgramFromFile api false flags).2.filter Clut.BuildEvent.isLogQuery)
      = (Clut.programDevices api).map Clut.BuildEvent.queryBuildLog := by
  have hrun : Clut.clut_createProgramFromFile api false flags
      = (none, Clut.clut_printProgramBuildLog api ++
          [Clut.BuildEvent.freeOptions, Clut.BuildEvent.releaseProgram,
           Clut.BuildEvent.freeLines]) := by
    unfold Clut.clut_createProgramFromFile
    cases flags <;>
      simp_all [Clut.clut_createProgramFromFile, hparse, hcreate, hnn, hbuild]
  rw [hrun, printProgramBuildLog_eq_map]
  refine ⟨rfl, ?_, ?_⟩
  · simp
  · simp [List.filter_append, List.filter_map, Function.comp_def,
      Clut.BuildEvent.isLogQuery]

/-- C2 witness: a mock build request over two devices whose build call fails
with CL_BUILD_PROGRAM_FAILURE (-11) returns none, releases the program, and
queries the build log of each of the two devices. -/
theorem createProgram_build_failure_witness :
    (Clut.clut_createProgramFromFile
        ⟨true, 0, false, true, true, fun _ => -11, 0, 2, true, 0, [7, 8]⟩ false none).1
      = none ∧
    Clut.BuildEvent.releaseProgram ∈
      (Clut.clut_createProgramFromFile
        ⟨true, 0, false, true, true, fun _ => -11, 0, 2, true, 0, [7, 8]⟩ false none).2 ∧
    ((Clut.clut_createProgramFromFile
        ⟨true, 0, false, true, true, fun _ => -11, 0, 2, true, 0, [7, 8]⟩ false none).2.filter
          Clut.BuildEvent.isLogQuery)
      = (Clut.programDevices
          ⟨true, 0, false, true, true, fun _ => -11, 0, 2, true, 0, [7, 8]⟩).map
          Clut.BuildEvent.queryBuildLog :=
  createProgram_build_failure
    ⟨true, 0, false, true, true, fun _ => -11, 0, 2, true, 0, [7, 8]⟩ none
    rfl rfl rfl rfl rfl

/-- C6 counterexample: BUILD_OPTS (the default flag string, mlclut.c 23-25)
already ends in a space, and the second sprintf overwrites the extra space
the first one wrote, so for caller flags "-g" the composed options string is
not BUILD_OPTS followed by one separating space followed by "-g". -/
theorem composedBuildOptions_not_space_joined :
    Clut.composedBuildOptions (some "-g") ≠ Clut.BUILD_OPTS ++ " " ++ "-g" := by
  decide

/-- C6 amended: with caller flags present the composed build-options string is
BUILD_OPTS directly followed by the caller's flag string verbatim (the single
space separating them is the final character of BUILD_OPTS itself, not an
inserted separator); with no caller flags it is BUILD_OPTS alone. -/
theorem composedBuildOptions_spec (f : String) :
    Clut.composedBuildOptions (some f) = Clut.BUILD_OPTS ++ f ∧
    Clut.composedBuildOptions none = Clut.BUILD_OPTS ∧
    Clut.BUILD_OPTS.toList.getLast? = some ' ' := by
  refine ⟨?_, rfl, by decide⟩
  show String.mk (((Clut.BUILD_OPTS ++ " ").toList.take
      Clut.BUILD_OPTS.toList.length) ++ f.toList) = Clut.BUILD_OPTS ++ f
  have h1 : (Clut.BUILD_OPTS ++ " ").toList
      = Clut.BUILD_OPTS.toList ++ [' '] := rfl
  rw [h1, List.take_left]
  rfl

/-- The frequency scaling loop leaves 999 unscaled at index 0. -/
theorem hertzLoop_at_999 :
    Clut.scaleWhile 1000 2 2 ((999 : Nat) : ℚ) 0 = (999, 0) := by
  norm_num [Clut.scaleWhile]

/-- The frequency scaling loop divides 1000 once, reaching index 1. -/
theorem hertzLoop_at_1000 :
    Clut.scaleWhile 1000 2 2 ((1000 : Nat) : ℚ) 0 = (1, 1) := by
  norm_num [Clut.scaleWhile]

/-- C3 counterexample: the frequency renderer applied to 999 does not produce
"999 MHz" - the unit label in the source's table is spelled "MhZ". -/
theorem hertz_render_999_not_MHz :
    Clut.clut_info_print_CL_UINT_hertz 999 ≠ some "999 MHz" := by
  simp only [Clut.clut_info_print_CL_UINT_hertz, hertzLoop_at_999]
  decide

/-- C3 amended: the frequency renderer produces exactly "999 MhZ" at 999 and
exactly "1.00 GhZ (1000 MhZ)" at 1000 - the same digits the claim states,
with the unit labels spelled "MhZ" and "GhZ" as in the source's unit table. -/
theorem hertz_render_999_1000 :
    Clut.clut_info_print_CL_UINT_hertz 999 = some "999 MhZ" ∧
    Clut.clut_info_print_CL_UINT_hertz 1000 = some "1.00 GhZ (1000 MhZ)" := by
  constructor
  · simp only [Clut.clut_info_print_CL_UINT_hertz, hertzLoop_at_999]
    decide
  · simp only [Clut.clut_info_print_CL_UINT_hertz, hertzLoop_at_1000]
    decide

/-- C4: a raw value of exactly 0 makes the affinity-domain renderer produce
"no affinity domain supported", the partition renderer (on the one-element
vector a non-partitionable device reports) produce "no partition type
supported", and the FP-capability renderer produce "no FP capabilities";
none of the three produces an empty list. -/
theorem zero_bitfield_renders_designated_labels :
    Clut.clut_info_print_CL_DEVICE_AFFINITY_DOMAIN 0 = "no affinity domain supported" ∧
    Clut.clut_info_print_CL_DEVICE_PARTITION_PROPERTIES [0] = "no partition type supported" ∧
    Clut.clut_info_print_CL_DEVICE_FP_CONFIG 0 = "no FP capabilities" ∧
    Clut.clut_info_print_CL_DEVICE_AFFINITY_DOMAIN 0 ≠ "" ∧
    Clut.clut_info_print_CL_DEVICE_PARTITION_PROPERTIES [0] ≠ "" ∧
    Clut.clut_info_print_CL_DEVICE_FP_CONFIG 0 ≠ "" := by
  decide

/-- The cl_ulong byte scaling loop at 2^60 bytes runs six times, reaching
index 5. -/
theorem ulongLoop_at_2_pow_60 :
    Clut.scaleWhile 1024 5 6 ((2 ^ 60 : Nat) : ℚ) (-1) = (1, 5) := by
  norm_num [Clut.scaleWhile]

/-- C5: evaluating clut_info_print_CL_ULONG_bytes at the representable
cl_ulong input 2^60: the scaling loop's guard (i < 5) lets the unit index
reach 5, one past the last named unit "PB" (index 4) - the position of the C
array's NULL sentinel - so printf would receive NULL for "%s" (result none).
The claim that scaling never selects an index past the last named unit fails
on the 64-bit renderer. -/
theorem ulong_bytes_scaling_overruns_unit_table :
    (Clut.scaleWhile 1024 5 6 ((2 ^ 60 : Nat) : ℚ) (-1)).2 = 5 ∧
    Clut.bytes_unit_ulong.length = 5 ∧
    Clut.clut_info_print_CL_ULONG_bytes (2 ^ 60) = none := by
  refine ⟨by rw [ulongLoop_at_2_pow_60], by decide, ?_⟩
  simp only [Clut.clut_info_print_CL_ULONG_bytes, ulongLoop_at_2_pow_60]
  decide

/-- The shared load tail always keeps the head of the trace it is given. -/
theorem loadFinish_trace_head (api : Clut.ImgApi) (b : Bool)
    (fmt : Clut.cl_image_format) (w h : Nat) (e : Clut.ImgEvent)
    (tr : List Clut.ImgEvent) :
    (Clut.loadFinish api b fmt w h (e :: tr)).trace.head? = some e := by
  unfold Clut.loadFinish
  split_ifs <;> simp

/-- C7 counterexample: the filename "imagepgm" has no ".pgm" suffix, yet the
load routes to the single-channel PGM decoder (the dispatch only tests for
the suffix "pgm"): with a pgm decoder that fails, the whole trace is the one
PGM decode attempt. -/
theorem load_dispatch_pgm_without_dot :
    (Clut.clut_loadImageFromFile ⟨1, (0, 0), fun _ => none, -1, -1⟩ "imagepgm").trace
      = [Clut.ImgEvent.pgmLoad] ∧
    Clut.StringUtils_endsWith "imagepgm" ".pgm" = false := by decide

/-- C7 amended: the load routes to the single-channel PGM decoder if and only
if the filename has a "pgm" suffix (no dot required); every filename without
that suffix routes to the general-purpose decoder with a native (0) requested
channel count as its first decode call. -/
theorem load_dispatch_by_pgm_suffix (api : Clut.ImgApi) (f : String) :
    ((Clut.clut_loadImageFromFile api f).trace.head? = some Clut.ImgEvent.pgmLoad
      ↔ Clut.StringUtils_endsWith f "pgm" = true) ∧
    (Clut.StringUtils_endsWith f "pgm" = false →
      (Clut.clut_loadImageFromFile api f).trace.head?
        = some (Clut.ImgEvent.stbLoad 0)) := by
  by_cases hs : Clut.StringUtils_endsWith f "pgm" = true
  · have hmain : (Clut.clut_loadImageFromFile api f).trace.head?
        = some Clut.ImgEvent.pgmLoad := by
      unfold Clut.clut_loadImageFromFile
      rw [if_pos hs]
      split_ifs
      · rfl
      · exact loadFinish_trace_head api true _ _ _ _ _
    exact ⟨⟨fun _ => hs, fun _ => hmain⟩, fun hf => absurd hs (by simp [hf])⟩
  · have hmain : (Clut.clut_loadImageFromFile api f).trace.head?
        = some (Clut.ImgEvent.stbLoad 0) := by
      unfold Clut.clut_loadImageFromFile
      rw [if_neg hs]
      cases h0 : api.stbLoad 0 with
      | none => rfl
      | some whc =>
        obtain ⟨w, h, c⟩ := whc
        dsimp only
        split_ifs
        · exact loadFinish_trace_head api false _ _ _ _ _
        · exact loadFinish_trace_head api false _ _ _ _ _
        · cases h4 : api.stbLoad 4 with
          | none => rfl
          | some whc2 =>
            obtain ⟨w2, h2, c2⟩ := whc2
            exact loadFinish_trace_head api false _ _ _ _ _
        · exact loadFinish_trace_head api false _ _ _ _ _
        · rfl
    refine ⟨⟨fun hcontra => ?_, fun h => absurd h hs⟩, fun _ => hmain⟩
    rw [hmain] at hcontra
    exact absurd hcontra (by simp)
/-- C7 witness: "photo.png" lacks the "pgm" suffix, so the first decode call
is the general-purpose decoder with requested channel count 0. -/
theorem load_dispatch_by_pgm_suffix_witness :
    (Clut.clut_loadImageFromFile ⟨1, (0, 0), fun _ => none, -1, -1⟩ "photo.png").trace.head?
      = some (Clut.ImgEvent.stbLoad 0) :=
  (load_dispatch_by_pgm_suffix ⟨1, (0, 0), fun _ => none, -1, -1⟩ "photo.png").2 (by decide)

/-- C8: a non-PGM load whose decoder reports 3 channels discards the first
buffer (stbi_image_free), re-decodes the same file forcing 4 channels, and
requests the device image with the CL_RGBA/CL_UNSIGNED_INT8 format; on
creation success the returned image carries that format, whose
clut_getImageFormatComponents is 4. -/
theorem load_3channel_upgrades_to_4 (api : Clut.ImgApi) (f : String)
    (w h w2 h2 c2 : Nat)
    (hnp : Clut.StringUtils_endsWith f "pgm" = false)
    (h0 : api.stbLoad 0 = some (w, h, 3))
    (h4 : api.stbLoad 4 = some (w2, h2, c2))
    (hcreate : Clut.clut_returnSuccess api.createImageRet = true) :
    (Clut.clut_loadImageFromFile api f).trace.take 3
      = [Clut.ImgEvent.stbLoad 0, Clut.ImgEvent.stbFree, Clut.ImgEvent.stbLoad 4] ∧
    Clut.ImgEvent.createImage Clut.CL_RGBA Clut.CL_UNSIGNED_INT8
      ∈ (Clut.clut_loadImageFromFile api f).trace ∧
    (Clut.clut_loadImageFromFile api f).result
      = some ⟨⟨Clut.CL_RGBA, Clut.CL_UNSIGNED_INT8⟩, w2, h2⟩ ∧
    Clut.clut_getImageFormatComponents ⟨Clut.CL_RGBA, Clut.CL_UNSIGNED_INT8⟩ = 4 := by
  have hrun : Clut.clut_loadImageFromFile api f
      = Clut.loadFinish api false ⟨Clut.CL_RGBA, Clut.CL_UNSIGNED_INT8⟩ w2 h2
          [Clut.ImgEvent.stbLoad 0, Clut.ImgEvent.stbFree, Clut.ImgEvent.stbLoad 4] := by
    unfold Clut.clut_loadImageFromFile
    rw [if_neg (by simp [hnp]), h0]
    simp [h4]
  rw [hrun]
  unfold Clut.loadFinish
  simp only [hcreate, not_true_eq_false, if_false]
  split_ifs <;>
    exact ⟨rfl, by simp, rfl, by decide⟩

/-- C8 witness: a 5x7 non-PGM image decoded with 3 native channels is
re-decoded at 4 channels and yields an RGBA device image whose component
count is 4. -/
theorem load_3channel_upgrades_to_4_witness :
    (Clut.clut_loadImageFromFile
        ⟨1, (0, 0), fun req => if req = 0 then some (5, 7, 3) else some (5, 7, 4), 0, 0⟩
        "img.png").trace.take 3
      = [Clut.ImgEvent.stbLoad 0, Clut.ImgEvent.stbFree, Clut.ImgEvent.stbLoad 4] ∧
    Clut.ImgEvent.createImage Clut.CL_RGBA Clut.CL_UNSIGNED_INT8
      ∈ (Clut.clut_loadImageFromFile
        ⟨1, (0, 0), fun req => if req = 0 then some (5, 7, 3) else some (5, 7, 4), 0, 0⟩
        "img.png").trace ∧
    (Clut.clut_loadImageFromFile
        ⟨1, (0, 0), fun req => if req = 0 then some (5, 7, 3) else some (5, 7, 4), 0, 0⟩
        "img.png").result
      = some ⟨⟨Clut.CL_RGBA, Clut.CL_UNSIGNED_INT8⟩, 5, 7⟩ ∧
    Clut.clut_getImageFormatComponents ⟨Clut.CL_RGBA, Clut.CL_UNSIGNED_INT8⟩ = 4 :=
  load_3channel_upgrades_to_4
    ⟨1, (0, 0), fun req => if req = 0 then some (5, 7, 3) else some (5, 7, 4), 0, 0⟩
    "img.png" 5 7 5 7 4 (by decide) (by decide) (by decide) (by decide)

/-- C9: evaluating clut_loadImageFromFile on a non-PGM 4-channel decode where
clCreateImage succeeds but the element-size introspection query fails: the
function returns through error1, skipping the error2 cleanup, so the stb
decode buffer is released zero times (not exactly once as claimed) - and the
created image is returned without the width/height out-parameters being set. -/
theorem load_elemSize_failure_skips_release :
    Clut.clut_loadImageFromFile ⟨1, (0, 0), fun _ => some (2, 2, 4), 0, -1⟩ "photo.png"
      = ⟨some ⟨⟨Clut.CL_RGBA, Clut.CL_UNSIGNED_INT8⟩, 2, 2⟩,
         [Clut.ImgEvent.stbLoad 0,
          Clut.ImgEvent.createImage Clut.CL_RGBA Clut.CL_UNSIGNED_INT8,
          Clut.ImgEvent.elemSizeQuery], none⟩ ∧
    ((Clut.clut_loadImageFromFile ⟨1, (0, 0), fun _ => some (2, 2, 4), 0, -1⟩
        "photo.png").trace.count Clut.ImgEvent.stbFree
      + (Clut.clut_loadImageFromFile ⟨1, (0, 0), fun _ => some (2, 2, 4), 0, -1⟩
        "photo.png").trace.count Clut.ImgEvent.freePlain) = 0 := by
  decide

/-- C10: the event-duration helpers never return a negative duration: a
failed profiling query or an end timestamp earlier than the start yields
exactly 0, and otherwise the result is the non-negative difference
end - start (times 1/10^9 for the double-valued variant). -/
theorem eventDuration_nonneg_and_zero_on_failure (api : Clut.EventApi) :
    0 ≤ Clut.clut_getEventDuration api ∧
    (Clut.clut_returnSuccess api.startRet = false ∨
        Clut.clut_returnSuccess api.endRet = false →
      Clut.clut_getEventDuration api = 0 ∧ Clut.clut_getEventDuration_ns api = 0) ∧
    (api.endVal < api.startVal →
      Clut.clut_getEventDuration api = 0 ∧ Clut.clut_getEventDuration_ns api = 0) ∧
    (Clut.clut_returnSuccess api.startRet = true →
      Clut.clut_returnSuccess api.endRet = true →
      api.startVal ≤ api.endVal →
      Clut.clut_getEventDuration_ns api = api.endVal - api.startVal ∧
      Clut.clut_getEventDuration api
        = ((api.endVal - api.startVal : Nat) : ℚ) * (1 / 1000000000)) := by
  refine ⟨?_, ?_, ?_, ?_⟩
  · unfold Clut.clut_getEventDuration
    split_ifs <;> positivity
  · intro hfail
    unfold Clut.clut_getEventDuration Clut.clut_getEventDuration_ns
    rcases hfail with hf | hf <;> simp [hf]
  · intro hlt
    unfold Clut.clut_getEventDuration Clut.clut_getEventDuration_ns
    split_ifs <;> exact ⟨rfl, rfl⟩
  · intro h1 h2 h3
    unfold Clut.clut_getEventDuration Clut.clut_getEventDuration_ns
    simp [h1, h2, Nat.not_lt.mpr h3]

/-- C10 witness: start 5, end 12, both queries successful: the nanosecond
duration is 7 and the seconds duration is 7/10^9. -/
theorem eventDuration_nonneg_and_zero_on_failure_witness :
    Clut.clut_getEventDuration_ns ⟨0, 5, 0, 12⟩ = 12 - 5 ∧
    Clut.clut_getEventDuration ⟨0, 5, 0, 12⟩
      = (((12 - 5 : Nat) : ℚ)) * (1 / 1000000000) :=
  (eventDuration_nonneg_and_zero_on_failure ⟨0, 5, 0, 12⟩).2.2.2
    (by decide) (by decide) (by decide)
